import Mathlib

/-!
# Secret Closet storefront backend — verification of the specification

Shallow embedding of the storefront catalog-and-order backend
(`src/main.py`, a FastAPI application over MongoDB).  `src/main.py` is the
current application (it owns the `uvicorn` entry point); `src/backend/` is an
earlier revision of the same service kept in the tree, referenced in the
comments where its behaviour diverges.

The embedding models:
* BSON-like documents and the response shaper `serialize_doc`;
* the product/order data model, the query builder of `list_products`,
  order creation, product validation, identifier parsing, the update
  endpoints, the category listing and the seed endpoint.

MongoDB itself is modelled as explicit list-valued state
(`DBState`); each handler is a pure function from the request and the current
state to a response and the next state.  Floating point prices are modelled
as rationals, datetimes as natural-number instants.
-/

namespace SecretCloset

/-! ## BSON-like documents

`serialize_doc` in `src/main.py` walks untyped Mongo documents: dictionaries
with string keys whose values are strings, numbers, booleans, `None`,
`ObjectId`s, `datetime`s, lists and nested dictionaries.  The three mutual
inductives below model exactly that value space; `BFields` is the ordered
association list underlying a Python `dict` (keys are unique in every real
document; the uniqueness invariant `uniqF` is stated separately below). -/

mutual
inductive BVal : Type where
  | str : String → BVal
  | num : Int → BVal
  | bool : Bool → BVal
  | null : BVal
  | oid : String → BVal
  | dt : Nat → BVal
  | arr : BList → BVal
  | obj : BFields → BVal

inductive BList : Type where
  | nil : BList
  | cons : BVal → BList → BList

inductive BFields : Type where
  | nil : BFields
  | cons : String → BVal → BFields → BFields
end

deriving instance DecidableEq for BVal
deriving instance DecidableEq for BList
deriving instance DecidableEq for BFields

/-- `"_id" in doc` / `doc["_id"]`: first binding of key `k`. -/
def getKey (k : String) : BFields → Option BVal
  | .nil => none
  | .cons k2 v rest => if k2 = k then some v else getKey k rest

/-- membership of a key in a dict. -/
def keyMem (k : String) : BFields → Bool
  | .nil => false
  | .cons k2 _ rest => k2 = k || keyMem k rest

/-- Python dict assignment `doc[k] = v`: replace the binding in place if the
key is present (keeping its position), otherwise append a new binding at the
end — exactly the ordering semantics of CPython dicts. -/
def assignKey (k : String) (v : BVal) : BFields → BFields
  | .nil => .cons k v .nil
  | .cons k2 w rest => if k2 = k then .cons k2 v rest else .cons k2 w (assignKey k v rest)

/-- `datetime.isoformat()`: an injective textual rendering of an instant.
Only its string-ness (a second pass no longer sees a `datetime`) and
injectivity matter to the source. -/
def isoStr (t : Nat) : String := "1970-01-01T00:00:" ++ toString t

/-- Python `str(...)` as applied by `serialize_doc` to the popped `_id`
value.  In every stored document `_id` is an `ObjectId`, whose `str` is its
hex string; the remaining cases are placeholders for renderings the source
never exercises. -/
def pyStr : BVal → String
  | .oid s => s
  | .str s => s
  | .num n => toString n
  | .bool b => if b then "True" else "False"
  | .null => "None"
  | .dt t => isoStr t
  | .arr _ => "<list>"
  | .obj _ => "<dict>"

/-! ### The response shaper `serialize_doc` (src/main.py lines 33–53)

```python
def serialize_doc(doc):
    if not doc:
        return doc
    doc["id"] = str(doc.pop("_id")) if "_id" in doc else None
    for k, v in list(doc.items()):
        if isinstance(v, datetime): doc[k] = v.isoformat()
        if isinstance(v, dict):     doc[k] = serialize_doc(v)
        if isinstance(v, list):     doc[k] = [serialize_doc(i) if dict else
                                              i.isoformat() if datetime else i]
    return doc
```

The Python code assigns `doc["id"]` *before* the loop; since the assigned
value is a plain string or `None` — which the loop leaves unchanged — and
assignment preserves the position of an existing `id` binding, performing
the assignment *after* mapping the loop body over the remaining values
yields the identical dict.  We define it in that order so the recursion is
structural: `serAuxDrop` maps the loop body over the values while dropping
the single `_id` binding (`doc.pop("_id")`; keys are unique in a dict, so
after the drop it continues as the plain map `serAux`). -/

mutual
/-- the body of the per-value loop of `serialize_doc`. -/
def serVal : BVal → BVal
  | .dt t => .str (isoStr t)
  | .obj d =>
      .obj (match d with
        | .nil => .nil
        | _ =>
          match getKey "_id" d with
          | some v => assignKey "id" (.str (pyStr v)) (serAuxDrop d)
          | none => assignKey "id" .null (serAux d))
  | .arr xs => .arr (serItems xs)
  | v => v

/-- the per-item handling inside the list branch: dicts recurse, datetimes
become ISO strings, everything else (including nested lists) is unchanged. -/
def serItems : BList → BList
  | .nil => .nil
  | .cons (.obj d) xs =>
      .cons
        (.obj (match d with
          | .nil => .nil
          | _ =>
            match getKey "_id" d with
            | some v => assignKey "id" (.str (pyStr v)) (serAuxDrop d)
            | none => assignKey "id" .null (serAux d)))
        (serItems xs)
  | .cons (.dt t) xs => .cons (.str (isoStr t)) (serItems xs)
  | .cons x xs => .cons x (serItems xs)

/-- map the loop body over every value. -/
def serAux : BFields → BFields
  | .nil => .nil
  | .cons k v rest => .cons k (serVal v) (serAux rest)

/-- map the loop body over every value while removing the (single) `_id`
binding popped by `doc.pop("_id")`. -/
def serAuxDrop : BFields → BFields
  | .nil => .nil
  | .cons k v rest =>
      if k = "_id" then serAux rest else .cons k (serVal v) (serAuxDrop rest)
end

/-- `serialize_doc` itself, on the fields of a document. -/
def serialize_doc (d : BFields) : BFields :=
  if d = .nil then .nil
  else
    match getKey "_id" d with
    | some v => assignKey "id" (.str (pyStr v)) (serAuxDrop d)
    | none => assignKey "id" .null (serAux d)

theorem serVal_obj (d : BFields) : serVal (.obj d) = .obj (serialize_doc d) := by
  cases d <;> rfl

theorem serItems_cons_obj (d : BFields) (xs : BList) :
    serItems (.cons (.obj d) xs) = .cons (.obj (serialize_doc d)) (serItems xs) := by
  cases d <;> rfl

/-! ### Dictionary lemmas -/

theorem getKey_assignKey_ne : ∀ (key k : String) (v : BVal) (d : BFields), k ≠ key →
    getKey key (assignKey k v d) = getKey key d
  | key, k, v, .nil, h => by simp [assignKey, getKey, h]
  | key, k, v, .cons k3 w rest, h => by
      by_cases h3 : k3 = k
      · subst h3; simp [assignKey, getKey, h]
      · simp [assignKey, getKey, h3, getKey_assignKey_ne key k v rest h]

theorem getKey_assignKey_self : ∀ (k : String) (v : BVal) (d : BFields),
    getKey k (assignKey k v d) = some v
  | k, v, .nil => by simp [assignKey, getKey]
  | k, v, .cons k3 w rest => by
      by_cases h3 : k3 = k
      · subst h3; simp [assignKey, getKey]
      · simp [assignKey, getKey, h3, getKey_assignKey_self k v rest]

theorem getKey_serAux : ∀ (key : String) (d : BFields),
    getKey key (serAux d) = (getKey key d).map serVal
  | _, .nil => rfl
  | key, .cons k v rest => by
      by_cases hk : k = key
      · subst hk; simp [serAux, getKey]
      · simp [serAux, getKey, hk, getKey_serAux key rest]

theorem serAux_assignKey : ∀ (k : String) (v : BVal) (d : BFields),
    serAux (assignKey k v d) = assignKey k (serVal v) (serAux d)
  | _, _, .nil => rfl
  | k, v, .cons k3 w rest => by
      by_cases h3 : k3 = k
      · subst h3; simp [assignKey, serAux]
      · simp [assignKey, serAux, h3, serAux_assignKey k v rest]

theorem assignKey_assignKey : ∀ (k : String) (v w : BVal) (d : BFields),
    assignKey k v (assignKey k w d) = assignKey k v d
  | k, v, w, .nil => by simp [assignKey]
  | k, v, w, .cons k3 u rest => by
      by_cases h3 : k3 = k
      · subst h3; simp [assignKey]
      · simp [assignKey, h3, assignKey_assignKey k v w rest]

theorem assignKey_ne_nil (k : String) (v : BVal) (d : BFields) :
    assignKey k v d ≠ .nil := by
  cases d with
  | nil => simp [assignKey]
  | cons k3 w rest => by_cases h3 : k3 = k <;> simp [assignKey, h3]

theorem getKey_eq_none_iff_keyMem : ∀ (key : String) (d : BFields),
    getKey key d = none ↔ keyMem key d = false
  | key, .nil => by simp [getKey, keyMem]
  | key, .cons k v rest => by
      by_cases hk : k = key
      · subst hk; simp [getKey, keyMem]
      · simp [getKey, keyMem, hk, getKey_eq_none_iff_keyMem key rest]

/-! ### Raw-identifier freeness (for §8 "shaping is idempotent")

A document is `idFree` when no dictionary at any nesting depth carries the
raw `_id` key.  On such documents `serialize_doc` is idempotent; the claimed
unconditional idempotence fails (see the counterexample below). -/

mutual
def idFreeV : BVal → Bool
  | .arr xs => idFreeL xs
  | .obj d => idFreeF d
  | _ => true

def idFreeL : BList → Bool
  | .nil => true
  | .cons x xs => idFreeV x && idFreeL xs

def idFreeF : BFields → Bool
  | .nil => true
  | .cons k v rest => (k != "_id") && idFreeV v && idFreeF rest
end

theorem getKey_none_of_idFree : ∀ {d : BFields}, idFreeF d = true → getKey "_id" d = none
  | .nil, _ => rfl
  | .cons k v rest, h => by
      simp only [idFreeF, Bool.and_eq_true, bne_iff_ne] at h
      simp [getKey, h.1.1, getKey_none_of_idFree h.2]

/-- The heart of the idempotence argument: once a single pass has already
been applied, the top level has no `_id`, so the second pass re-assigns
`id := None`-free value `null`… provided the value map is itself stable. -/
theorem shape_shape_of (d : BFields) (hid : getKey "_id" d = none)
    (haux : serAux (serAux d) = serAux d) :
    serialize_doc (serialize_doc d) = serialize_doc d := by
  by_cases hnil : d = .nil
  · subst hnil; rfl
  · have h1 : serialize_doc d = assignKey "id" .null (serAux d) := by
      simp [serialize_doc, hnil, hid]
    rw [h1]
    have h2 : getKey "_id" (assignKey "id" BVal.null (serAux d)) = none := by
      rw [getKey_assignKey_ne _ _ _ _ (by decide), getKey_serAux, hid]; rfl
    have h3 : assignKey "id" BVal.null (serAux d) ≠ .nil := assignKey_ne_nil _ _ _
    simp only [serialize_doc, if_neg h3, h2]
    rw [serAux_assignKey]
    rw [show serVal BVal.null = BVal.null from rfl, haux, assignKey_assignKey]

mutual
theorem serVal_serVal : ∀ (v : BVal), idFreeV v = true → serVal (serVal v) = serVal v
  | .str _, _ => rfl
  | .num _, _ => rfl
  | .bool _, _ => rfl
  | .null, _ => rfl
  | .oid _, _ => rfl
  | .dt _, _ => rfl
  | .obj d, h => by
      rw [serVal_obj, serVal_obj]
      exact congrArg BVal.obj (shape_shape_of d (getKey_none_of_idFree h) (serAux_serAux d h))
  | .arr xs, h => by
      simp only [serVal]
      exact congrArg BVal.arr (serItems_serItems xs h)

theorem serItems_serItems : ∀ (xs : BList), idFreeL xs = true → serItems (serItems xs) = serItems xs
  | .nil, _ => rfl
  | .cons (.obj d) xs, h => by
      simp only [idFreeL, idFreeV, Bool.and_eq_true] at h
      rw [serItems_cons_obj, serItems_cons_obj]
      exact congrArg₂ BList.cons
        (congrArg BVal.obj (shape_shape_of d (getKey_none_of_idFree h.1) (serAux_serAux d h.1)))
        (serItems_serItems xs h.2)
  | .cons (.str s) xs, h => by
      simp only [idFreeL, Bool.and_eq_true] at h
      simp only [serItems]
      exact congrArg _ (serItems_serItems xs h.2)
  | .cons (.num n) xs, h => by
      simp only [idFreeL, Bool.and_eq_true] at h
      simp only [serItems]
      exact congrArg _ (serItems_serItems xs h.2)
  | .cons (.bool b) xs, h => by
      simp only [idFreeL, Bool.and_eq_true] at h
      simp only [serItems]
      exact congrArg _ (serItems_serItems xs h.2)
  | .cons .null xs, h => by
      simp only [idFreeL, Bool.and_eq_true] at h
      simp only [serItems]
      exact congrArg _ (serItems_serItems xs h.2)
  | .cons (.oid s) xs, h => by
      simp only [idFreeL, Bool.and_eq_true] at h
      simp only [serItems]
      exact congrArg _ (serItems_serItems xs h.2)
  | .cons (.dt t) xs, h => by
      simp only [idFreeL, Bool.and_eq_true] at h
      simp only [serItems]
      exact congrArg _ (serItems_serItems xs h.2)
  | .cons (.arr ys) xs, h => by
      simp only [idFreeL, Bool.and_eq_true] at h
      simp only [serItems]
      exact congrArg _ (serItems_serItems xs h.2)

theorem serAux_serAux : ∀ (d : BFields), idFreeF d = true → serAux (serAux d) = serAux d
  | .nil, _ => rfl
  | .cons k v rest, h => by
      simp only [idFreeF, Bool.and_eq_true] at h
      simp only [serAux]
      rw [serVal_serVal v h.1.2, serAux_serAux rest h.2]
end

/-! ### What one shaping pass guarantees (for the amended recursive-stripping claim)

`uniq*` is the CPython dict invariant every real document satisfies: keys are
unique in every dictionary, at every nesting depth.  `clean*` says the raw
`_id` key is absent from every dictionary the shaper reaches: the top level,
dictionaries nested as values, and dictionaries one list level down —
dictionaries inside lists inside lists are not visited by the source, so
they are not constrained. -/

mutual
def uniqV : BVal → Bool
  | .arr xs => uniqL xs
  | .obj d => uniqF d
  | _ => true

def uniqL : BList → Bool
  | .nil => true
  | .cons x xs => uniqV x && uniqL xs

def uniqF : BFields → Bool
  | .nil => true
  | .cons k v rest => !keyMem k rest && uniqV v && uniqF rest
end

mutual
def cleanV : BVal → Bool
  | .arr xs => cleanL xs
  | .obj d => cleanF d
  | _ => true

def cleanL : BList → Bool
  | .nil => true
  | .cons (.obj d) xs => cleanF d && cleanL xs
  | .cons _ xs => cleanL xs

def cleanF : BFields → Bool
  | .nil => true
  | .cons k v rest => (k != "_id") && cleanV v && cleanF rest
end

theorem cleanF_assignKey : ∀ (k : String) (v : BVal) (d : BFields),
    (k != "_id") = true → cleanV v = true → cleanF d = true →
    cleanF (assignKey k v d) = true
  | k, v, .nil, hk, hv, _ => by simp [assignKey, cleanF, hk, hv]
  | k, v, .cons k3 w rest, hk, hv, hd => by
      simp only [cleanF, Bool.and_eq_true] at hd
      by_cases h3 : k3 = k
      · subst h3
        simp [assignKey, cleanF, hk, hv, hd.1.1, hd.2, Bool.and_eq_true]
      · simp [assignKey, h3, cleanF, hd.1.1, hd.1.2, Bool.and_eq_true,
          cleanF_assignKey k v rest hk hv hd.2]

/-- If both value-mapping passes over the fields produce clean output, so
does a full `serialize_doc` pass: the `id` binding it assigns holds a plain
string or `None`. -/
theorem cleanF_shape_of (d : BFields)
    (h1 : cleanF (serAuxDrop d) = true)
    (h2 : getKey "_id" d = none → cleanF (serAux d) = true) :
    cleanF (serialize_doc d) = true := by
  by_cases hnil : d = .nil
  · subst hnil; rfl
  · rcases hid : getKey "_id" d with _ | v
    · simp only [serialize_doc, if_neg hnil, hid]
      exact cleanF_assignKey _ _ _ (by decide) rfl (h2 hid)
    · simp only [serialize_doc, if_neg hnil, hid]
      exact cleanF_assignKey _ _ _ (by decide) rfl h1

mutual
theorem cleanV_serVal : ∀ (v : BVal), uniqV v = true → cleanV (serVal v) = true
  | .str _, _ => rfl
  | .num _, _ => rfl
  | .bool _, _ => rfl
  | .null, _ => rfl
  | .oid _, _ => rfl
  | .dt _, _ => rfl
  | .obj d, h => by
      rw [serVal_obj]
      exact cleanF_shape_of d (cleanF_serAuxDrop d h)
        (fun hid => cleanF_serAux d h ((getKey_eq_none_iff_keyMem "_id" d).mp hid))
  | .arr xs, h => by
      simp only [serVal]
      exact cleanL_serItems xs h

theorem cleanL_serItems : ∀ (xs : BList), uniqL xs = true → cleanL (serItems xs) = true
  | .nil, _ => rfl
  | .cons (.obj d) xs, h => by
      simp only [uniqL, uniqV, Bool.and_eq_true] at h
      rw [serItems_cons_obj]
      simp only [cleanL, Bool.and_eq_true]
      exact ⟨cleanF_shape_of d (cleanF_serAuxDrop d h.1)
        (fun hid => cleanF_serAux d h.1 ((getKey_eq_none_iff_keyMem "_id" d).mp hid)),
        cleanL_serItems xs h.2⟩
  | .cons (.str s) xs, h => by
      simp only [uniqL, Bool.and_eq_true] at h
      simp only [serItems, cleanL]
      exact cleanL_serItems xs h.2
  | .cons (.num n) xs, h => by
      simp only [uniqL, Bool.and_eq_true] at h
      simp only [serItems, cleanL]
      exact cleanL_serItems xs h.2
  | .cons (.bool b) xs, h => by
      simp only [uniqL, Bool.and_eq_true] at h
      simp only [serItems, cleanL]
      exact cleanL_serItems xs h.2
  | .cons .null xs, h => by
      simp only [uniqL, Bool.and_eq_true] at h
      simp only [serItems, cleanL]
      exact cleanL_serItems xs h.2
  | .cons (.oid s) xs, h => by
      simp only [uniqL, Bool.and_eq_true] at h
      simp only [serItems, cleanL]
      exact cleanL_serItems xs h.2
  | .cons (.dt t) xs, h => by
      simp only [uniqL, Bool.and_eq_true] at h
      simp only [serItems, cleanL]
      exact cleanL_serItems xs h.2
  | .cons (.arr ys) xs, h => by
      simp only [uniqL, Bool.and_eq_true] at h
      simp only [serItems, cleanL]
      exact cleanL_serItems xs h.2

theorem cleanF_serAux : ∀ (d : BFields), uniqF d = true → keyMem "_id" d = false →
    cleanF (serAux d) = true
  | .nil, _, _ => rfl
  | .cons k v rest, h, h2 => by
      simp only [uniqF, Bool.and_eq_true] at h
      simp only [keyMem, Bool.or_eq_false_iff, decide_eq_false_iff_not] at h2
      simp only [serAux, cleanF, Bool.and_eq_true, bne_iff_ne]
      exact ⟨⟨h2.1, cleanV_serVal v h.1.2⟩, cleanF_serAux rest h.2 h2.2⟩

theorem cleanF_serAuxDrop : ∀ (d : BFields), uniqF d = true →
    cleanF (serAuxDrop d) = true
  | .nil, _ => rfl
  | .cons k v rest, h => by
      simp only [uniqF, Bool.and_eq_true, Bool.not_eq_true] at h
      by_cases hk : k = "_id"
      · subst hk
        simp only [serAuxDrop, if_pos rfl]
        exact cleanF_serAux rest h.2 (by simpa using h.1.1)
      · simp only [serAuxDrop, if_neg hk, cleanF, Bool.and_eq_true, bne_iff_ne]
        exact ⟨⟨hk, cleanV_serVal v h.1.2⟩, cleanF_serAuxDrop rest h.2⟩
end

/-! ## Typed data model

The stored product document of the current application: the fields written
by `create_product` / `seed_products` and read by the query endpoints.
Prices are rationals (Python floats), instants are naturals.  The open
`specs`/`options` maps carry no logic touched by any claim and are omitted.
`rating` is the `{average, count}` structure of `src/main.py`. -/

structure ProductDoc where
  oid : String
  name : String
  brand : Option String
  price : ℚ
  category : String
  description : Option String
  images : List String
  stock : Int
  is_featured : Bool
  tags : List String
  sale_price : Option ℚ
  rating_average : ℚ
  rating_count : Nat
  created_at : Nat
  updated_at : Nat
deriving DecidableEq

structure ShippingInfo where
  full_name : String
  email : String
  phone : Option String
  address_line1 : String
  address_line2 : Option String
  city : String
  state : String
  postal_code : String
  country : String
deriving DecidableEq

structure PaymentInfo where
  method : String
  status : String
  transaction_id : Option String
deriving DecidableEq

/-- An order line item (`OrderItem` in `src/main.py`); pydantic validates
`quantity ≥ 1`, so a natural number carries it.  The chosen options map is
modelled as key/value pairs. -/
structure OrderItem where
  product_id : String
  name : String
  price : ℚ
  quantity : Nat
  image : Option String
  options : List (String × String)
deriving DecidableEq

/-- The validated request body of `POST /api/orders` (`OrderIn`).  Note that
it has no total field of any kind: a client cannot supply one. -/
structure OrderIn where
  items : List OrderItem
  shipping : ShippingInfo
  payment : PaymentInfo
  notes : Option String
deriving DecidableEq

structure OrderDoc where
  oid : String
  items : List OrderItem
  shipping : ShippingInfo
  payment : PaymentInfo
  notes : Option String
  order_number : String
  total_amount : ℚ
  status : String
  created_at : Nat
  updated_at : Nat
deriving DecidableEq

/-- The response model of `POST /api/orders` (`OrderOut`). -/
structure OrderOut where
  id : String
  order_number : String
  total_amount : ℚ
  status : String
  created_at : String
deriving DecidableEq

/-- The database: one collection of products, one of orders. -/
structure DBState where
  products : List ProductDoc
  orders : List OrderDoc
deriving DecidableEq

/-- Error signals of the HTTP layer: 400, 404, 422 (pydantic body
rejection — also a client error), 500. -/
inductive ApiErr : Type where
  | badRequest : ApiErr
  | notFound : ApiErr
  | unprocessable : ApiErr
  | serverError : ApiErr
deriving DecidableEq

/-! ## Query builder (`GET /api/products`, src/main.py lines 175–222) -/

/-- is `p` a prefix of `s` (on characters)? -/
def startsWithChars : List Char → List Char → Bool
  | [], _ => true
  | _ :: _, [] => false
  | a :: as, b :: bs => a = b && startsWithChars as bs

/-- does `p` occur contiguously inside `s`? -/
def hasSubChars (p : List Char) : List Char → Bool
  | [] => p.isEmpty
  | b :: bs => startsWithChars p (b :: bs) || hasSubChars p bs

/-- `{"$regex": q, "$options": "i"}` for a metacharacter-free pattern:
case-insensitive unanchored substring match. -/
def substrCI (pat s : String) : Bool :=
  hasSubChars pat.toLower.toList s.toLower.toList

/-- The query parameters of `list_products`.  FastAPI validates
`min_price ≥ 0`, `max_price ≥ 0`, `page ≥ 1`, `1 ≤ limit ≤ 60`; the bounds
are irrelevant to the claims proved here. -/
structure ListParams where
  q : Option String
  category : Option String
  min_price : Option ℚ
  max_price : Option ℚ
  sort : Option String
  page : Nat
  limit : Nat
deriving DecidableEq

/-- The Mongo filter document built by `list_products`, evaluated as a
predicate on one product.  `if q:` and `if category:` treat the empty string
as absent; `$gte`/`$lte` are inclusive; the `$or` clause matches name,
brand, category or any tag; a document with no brand does not match the
brand clause. -/
def matchesFilter (p : ListParams) (d : ProductDoc) : Bool :=
  (match p.q with
   | none => true
   | some s =>
     if s = "" then true
     else
       substrCI s d.name ||
       (match d.brand with
        | some b => substrCI s b
        | none => false) ||
       substrCI s d.category ||
       d.tags.any (fun t => substrCI s t)) &&
  (match p.category with
   | none => true
   | some c => if c = "" then true else decide (d.category = c)) &&
  (match p.min_price with
   | none => true
   | some m => decide (m ≤ d.price)) &&
  (match p.max_price with
   | none => true
   | some m => decide (d.price ≤ m))

/-- The sort stage: `price_asc`/`price_desc` order by price,
`new` by descending creation time, `popular` by descending `rating.count`;
any other value leaves the collection order. -/
def sortStage (s : Option String) (l : List ProductDoc) : List ProductDoc :=
  match s with
  | some "price_asc" => l.mergeSort (fun a b => decide (a.price ≤ b.price))
  | some "price_desc" => l.mergeSort (fun a b => decide (b.price ≤ a.price))
  | some "new" => l.mergeSort (fun a b => decide (b.created_at ≤ a.created_at))
  | some "popular" => l.mergeSort (fun a b => decide (b.rating_count ≤ a.rating_count))
  | _ => l

/-- `GET /api/products`: filter, count, sort, then paginate with
`skip((page-1)*limit).limit(limit)`.  Returns the page of items and the
total matching count. -/
def list_products (db : DBState) (p : ListParams) : List ProductDoc × Nat :=
  let filtered := db.products.filter (matchesFilter p)
  let total := filtered.length
  let sorted := sortStage p.sort filtered
  ((sorted.drop ((p.page - 1) * p.limit)).take p.limit, total)

/-- `GET /api/categories` (src/main.py lines 163–168): the distinct category
values, sorted ascending.  The source guards `isinstance(c, str)`; in this
typed model every stored category is a string, so the guard keeps every
value — in particular it does not exclude the empty string. -/
def get_categories (db : DBState) : List String :=
  ((db.products.map (fun d => d.category)).dedup).mergeSort
    (fun a b => decide (a ≤ b))

/-! ## Identifier parsing (`to_object_id`, src/main.py lines 26–30)

`bson.ObjectId(s)` accepts exactly a 24-character hexadecimal string;
anything else raises, which the utility converts to HTTP 400 before any
database access. -/

def isHexChar (c : Char) : Bool :=
  c.isDigit || (('a' ≤ c) && (c ≤ 'f')) || (('A' ≤ c) && (c ≤ 'F'))

def isValidObjectId (s : String) : Bool :=
  s.length = 24 && s.toList.all isHexChar

/-- `to_object_id`: parse or signal a 400 client error. The parsed ObjectId
is carried as its hex string. -/
def to_object_id (s : String) : Except ApiErr String :=
  if isValidObjectId s then .ok s else .error .badRequest

/-! ## Write validation (`ProductIn`, src/main.py lines 60–72)

pydantic: `name`, `price`, `category` are required; `price ≥ 0`;
`stock` defaults to `0` and must be `≥ 0`; `sale_price` is optional and
must be `≥ 0` when present; the remaining fields are optional with
defaults.  A violation is rejected by FastAPI with a 422 client error
before the handler runs. -/

structure ProductIn where
  name : String
  brand : Option String
  price : ℚ
  category : String
  description : Option String
  images : List String
  stock : Int
  is_featured : Bool
  tags : List String
  sale_price : Option ℚ
deriving DecidableEq

/-- A raw request body for the product endpoints; `none` is an absent
field. -/
structure RawProductIn where
  name : Option String
  brand : Option String
  price : Option ℚ
  category : Option String
  description : Option String
  images : Option (List String)
  stock : Option Int
  is_featured : Option Bool
  tags : Option (List String)
  sale_price : Option ℚ
deriving DecidableEq

/-- pydantic validation of `ProductIn`. -/
def validate_product_in (r : RawProductIn) : Option ProductIn :=
  match r.name, r.price, r.category with
  | some n, some pr, some c =>
      if pr < 0 then none
      else
        let stock := r.stock.getD 0
        if stock < 0 then none
        else
          match r.sale_price with
          | some sp =>
              if sp < 0 then none
              else some { name := n, brand := r.brand, price := pr, category := c,
                          description := r.description, images := r.images.getD [],
                          stock := stock, is_featured := r.is_featured.getD false,
                          tags := r.tags.getD [], sale_price := some sp }
          | none =>
              some { name := n, brand := r.brand, price := pr, category := c,
                     description := r.description, images := r.images.getD [],
                     stock := stock, is_featured := r.is_featured.getD false,
                     tags := r.tags.getD [], sale_price := none }
  | _, _, _ => none

/-- `POST /api/admin/products`: validate, stamp `created_at = updated_at =
now` and a zero rating, insert, return the inserted document. -/
def create_product (db : DBState) (r : RawProductIn) (now : Nat) (newOid : String) :
    Except ApiErr ProductDoc × DBState :=
  match validate_product_in r with
  | none => (.error .unprocessable, db)
  | some p =>
      let doc : ProductDoc :=
        { oid := newOid, name := p.name, brand := p.brand, price := p.price,
          category := p.category, description := p.description, images := p.images,
          stock := p.stock, is_featured := p.is_featured, tags := p.tags,
          sale_price := p.sale_price, rating_average := 0, rating_count := 0,
          created_at := now, updated_at := now }
      (.ok doc, { db with products := db.products ++ [doc] })

/-- `update_one` / `find_one_and_update`: replace the first matching
document, report whether any matched.  With no match the collection is
returned unchanged. -/
def updateFirst {α : Type} (f : α → Bool) (g : α → α) : List α → List α × Bool
  | [] => ([], false)
  | x :: xs =>
      if f x then (g x :: xs, true)
      else
        let r := updateFirst f g xs
        (x :: r.1, r.2)

/-- the `$set` document of `update_product`: every `ProductIn` field plus
`updated_at`; `oid`, `created_at` and the rating are untouched. -/
def setProductFields (p : ProductIn) (now : Nat) (d : ProductDoc) : ProductDoc :=
  { d with name := p.name, brand := p.brand, price := p.price,
           category := p.category, description := p.description,
           images := p.images, stock := p.stock, is_featured := p.is_featured,
           tags := p.tags, sale_price := p.sale_price, updated_at := now }

/-- `GET /api/products/{product_id}`: parse the id (400 on failure, before
any lookup), then 404 when no document matches. -/
def get_product (db : DBState) (pid : String) : Except ApiErr ProductDoc :=
  match to_object_id pid with
  | .error e => .error e
  | .ok o =>
      match db.products.find? (fun d => d.oid == o) with
      | none => .error .notFound
      | some d => .ok d

/-- `PUT /api/admin/products/{product_id}`: body validation (FastAPI, 422)
precedes the handler; the handler parses the id (400), runs `update_one`,
signals 404 on `matched_count == 0`, otherwise re-fetches and returns the
document.  The final `none` branch is unreachable: a matched update implies
the document exists. -/
def update_product (db : DBState) (pid : String) (r : RawProductIn) (now : Nat) :
    Except ApiErr ProductDoc × DBState :=
  match validate_product_in r with
  | none => (.error .unprocessable, db)
  | some p =>
      match to_object_id pid with
      | .error e => (.error e, db)
      | .ok o =>
          let res := updateFirst (fun d => d.oid == o) (setProductFields p now) db.products
          let db2 : DBState := { db with products := res.1 }
          if res.2 then
            match db2.products.find? (fun d => d.oid == o) with
            | some doc => (.ok doc, db2)
            | none => (.error .serverError, db2)
          else (.error .notFound, db2)

/-! ## Orders -/

/-- `f"ORD-{now.strftime('%Y%m%d%H%M%S')}"`: an opaque textual rendering of
the creation instant. -/
def orderNumber (now : Nat) : String := "ORD-" ++ toString now

/-- `POST /api/orders` (src/main.py lines 284–309): the server computes
`total_amount = sum(item.price * item.quantity for item in order.items)`,
stores it, and returns it; `OrderIn` carries no client total. -/
def create_order (db : DBState) (o : OrderIn) (now : Nat) (newOid : String) :
    DBState × OrderOut :=
  let total_amount : ℚ := (o.items.map (fun i => i.price * (i.quantity : ℚ))).sum
  let doc : OrderDoc :=
    { oid := newOid, items := o.items, shipping := o.shipping,
      payment := o.payment, notes := o.notes, order_number := orderNumber now,
      total_amount := total_amount, status := "pending",
      created_at := now, updated_at := now }
  ({ db with orders := db.orders ++ [doc] },
   { id := newOid, order_number := orderNumber now, total_amount := total_amount,
     status := "pending", created_at := isoStr now })

/-- `GET /api/orders/{order_id}`. -/
def get_order (db : DBState) (oid_str : String) : Except ApiErr OrderDoc :=
  match to_object_id oid_str with
  | .error e => .error e
  | .ok o =>
      match db.orders.find? (fun d => d.oid == o) with
      | none => .error .notFound
      | some d => .ok d

/-- `PUT /api/orders/{order_id}/status` (src/main.py lines 322–332):
`update_one` sets `status` and `updated_at` on the matching order; 404 when
`matched_count == 0`. -/
def update_order_status (db : DBState) (oid_str status : String) (now : Nat) :
    Except ApiErr (String × String) × DBState :=
  match to_object_id oid_str with
  | .error e => (.error e, db)
  | .ok o =>
      let res := updateFirst (fun d => d.oid == o)
        (fun d => { d with status := status, updated_at := now }) db.orders
      let db2 : DBState := { db with orders := res.1 }
      if res.2 then (.ok (oid_str, status), db2)
      else (.error .notFound, db2)

/-! ## Seeding (`POST /api/admin/seed`, src/main.py lines 339–414)

The four sample products, transcribed from the source.  `insert_many`
assigns the object ids; they are modelled as placeholder hex strings, which
no claim inspects. -/

def sampleProducts (now : Nat) : List ProductDoc :=
  [ { oid := "5eed000000000000000000a1", name := "Classic Tee",
      brand := some "Secret", price := 29.99, sale_price := some 24.99,
      category := "Apparel", description := some "Soft cotton tee",
      images := ["https://images.unsplash.com/photo-1512436991641-6745cdb1723f?q=80&w=800&auto=format&fit=crop"],
      stock := 42, is_featured := true, tags := ["bestseller", "new"],
      created_at := now, updated_at := now,
      rating_average := 4.6, rating_count := 120 },
    { oid := "5eed000000000000000000a2", name := "Everyday Jeans",
      brand := some "Secret", price := 59.0, sale_price := none,
      category := "Apparel", description := some "Slim fit denim",
      images := ["https://images.unsplash.com/photo-1519741497674-611481863552?q=80&w=800&auto=format&fit=crop"],
      stock := 18, is_featured := false, tags := ["denim"],
      created_at := now, updated_at := now,
      rating_average := 4.3, rating_count := 80 },
    { oid := "5eed000000000000000000a3", name := "Minimal Sneakers",
      brand := some "Secret", price := 79.0, sale_price := some 69.0,
      category := "Footwear", description := some "Clean silhouette",
      images := ["https://images.unsplash.com/photo-1542291026-7eec264c27ff?q=80&w=800&auto=format&fit=crop"],
      stock := 25, is_featured := true, tags := ["sneakers", "minimal"],
      created_at := now, updated_at := now,
      rating_average := 4.8, rating_count := 200 },
    { oid := "5eed000000000000000000a4", name := "No. 7 Eau de Parfum",
      brand := some "Secret Scents", price := 110.0, sale_price := none,
      category := "Fragrance", description := some "Amber, vanilla and cedar. Long-lasting.",
      images := ["https://images.unsplash.com/photo-1616606347407-23ca041ac856?q=80&w=800&auto=format&fit=crop"],
      stock := 12, is_featured := true, tags := ["perfume", "fragrance"],
      created_at := now, updated_at := now,
      rating_average := 4.9, rating_count := 310 } ]

/-- The JSON body returned by the seed endpoint: a message, and a count
only on the inserting call. -/
structure SeedResp where
  message : String
  count : Option Nat
deriving DecidableEq

/-- `POST /api/admin/seed`: no-op when any product exists (the response then
carries no count), otherwise insert the sample catalog and report its
size. -/
def seed_products (db : DBState) (now : Nat) : SeedResp × DBState :=
  if db.products.length > 0 then
    ({ message := "Products already seeded", count := none }, db)
  else
    ({ message := "Seeded sample products", count := some (sampleProducts now).length },
     { db with products := db.products ++ sampleProducts now })

/-! ## General lemmas about the handlers -/

/-- `update_one` with a filter nobody matches modifies nothing. -/
theorem updateFirst_no_match {α : Type} (f : α → Bool) (g : α → α) :
    ∀ (l : List α), (∀ x ∈ l, f x = false) → updateFirst f g l = (l, false)
  | [], _ => rfl
  | x :: xs, h => by
      simp only [updateFirst, h x (by simp), Bool.false_eq_true, if_false]
      rw [updateFirst_no_match f g xs (fun y hy => h y (by simp [hy]))]

/-- membership survives the sort stage. -/
theorem mem_of_mem_sortStage {s : Option String} {l : List ProductDoc}
    {x : ProductDoc} (hx : x ∈ sortStage s l) : x ∈ l := by
  unfold sortStage at hx
  split at hx <;> first
    | exact hx
    | exact (List.mergeSort_perm l _).mem_iff.mp hx

/-! ## The claims -/

/-- Claim C1: for every create-order request the stored and the returned
`total_amount` both equal the sum over the order items of price × quantity;
the total is a function of the items alone (the request body has no total
field a client could supply); and the items
`[{price:10, qty:2}, {price:5, qty:1}]` yield `total_amount = 25`. -/
theorem create_order_total (db : DBState) (o : OrderIn) (now : Nat) (newOid : String) :
    ((create_order db o now newOid).2.total_amount
        = (o.items.map (fun i => i.price * (i.quantity : ℚ))).sum) ∧
    ((create_order db o now newOid).1.orders
        = db.orders ++
          [{ oid := newOid, items := o.items, shipping := o.shipping,
             payment := o.payment, notes := o.notes,
             order_number := orderNumber now,
             total_amount := (o.items.map (fun i => i.price * (i.quantity : ℚ))).sum,
             status := "pending", created_at := now, updated_at := now }]) ∧
    (∀ o2 : OrderIn, o2.items = o.items →
        (create_order db o2 now newOid).2.total_amount
          = (create_order db o now newOid).2.total_amount) ∧
    (o.items.map (fun i => (i.price, i.quantity)) = [(10, 2), (5, 1)] →
        (create_order db o now newOid).2.total_amount = 25) := by
  refine ⟨rfl, rfl, ?_, ?_⟩
  · intro o2 h2
    simp [create_order, h2]
  · intro h
    rcases ho : o.items with _ | ⟨a, t⟩
    · rw [ho] at h; simp at h
    rcases ht : t with _ | ⟨b, t2⟩
    · rw [ho, ht] at h; simp at h
    rcases ht2 : t2 with _ | ⟨c, t3⟩
    · rw [ho, ht, ht2] at h
      simp only [List.map_cons, List.map_nil, List.cons.injEq, Prod.mk.injEq,
        List.nil_eq] at h
      obtain ⟨⟨ha1, ha2⟩, ⟨hb1, hb2⟩, -⟩ := h
      simp [create_order, ho, ht, ht2, ha1, ha2, hb1, hb2]
      norm_num
    · rw [ho, ht, ht2] at h; simp at h

/-- Witness for C1 at a concrete request. -/
theorem create_order_total_witness :
    (create_order ⟨[], []⟩
      ⟨[⟨"p1", "A", 10, 2, none, []⟩, ⟨"p2", "B", 5, 1, none, []⟩],
       ⟨"N", "n@example.com", none, "1 Main St", none, "Town", "TS", "00000", "US"⟩,
       ⟨"cod", "pending", none⟩, none⟩ 7 "64b0c0ffee64b0c0ffee64b0").2.total_amount
      = 25 :=
  (create_order_total ⟨[], []⟩
    ⟨[⟨"p1", "A", 10, 2, none, []⟩, ⟨"p2", "B", 5, 1, none, []⟩],
     ⟨"N", "n@example.com", none, "1 Main St", none, "Town", "TS", "00000", "US"⟩,
     ⟨"cod", "pending", none⟩, none⟩ 7 "64b0c0ffee64b0c0ffee64b0").2.2.2 (by decide)

/-- Claim C7: an identifier string that does not parse as an ObjectId makes
the single-document fetch and update handlers answer HTTP 400 — a client
error, not a server error — with the database left untouched and the
response independent of the database contents (no lookup is attempted).
For the update endpoints the body must have passed the (earlier) FastAPI
validation, which is independent of the path identifier. -/
theorem invalid_id_client_error (db db2 : DBState) (s : String)
    (r : RawProductIn) (st : String) (now : Nat)
    (h : ¬ isValidObjectId s = true) :
    get_product db s = .error .badRequest ∧
    get_order db s = .error .badRequest ∧
    get_product db s = get_product db2 s ∧
    get_order db s = get_order db2 s ∧
    (validate_product_in r ≠ none →
       update_product db s r now = (.error .badRequest, db)) ∧
    update_order_status db s st now = (.error .badRequest, db) := by
  have hto : to_object_id s = .error .badRequest := by
    simp [to_object_id, h]
  refine ⟨?_, ?_, ?_, ?_, ?_, ?_⟩
  · simp [get_product, hto]
  · simp [get_order, hto]
  · simp [get_product, hto]
  · simp [get_order, hto]
  · intro hv
    rcases hval : validate_product_in r with _ | p
    · exact absurd hval hv
    · simp [update_product, hval, hto]
  · simp [update_order_status, hto]

/-- Witness for C7 at the malformed identifier `"not-an-objectid"`. -/
theorem invalid_id_client_error_witness :
    get_product ⟨[], []⟩ "not-an-objectid" = .error .badRequest ∧
    update_order_status ⟨[], []⟩ "not-an-objectid" "shipped" 3
      = (.error .badRequest, ⟨[], []⟩) := by
  have h := invalid_id_client_error ⟨[], []⟩ ⟨[], []⟩ "not-an-objectid"
    ⟨some "T", none, some 1, some "Apparel", none, none, none, none, none, none⟩
    "shipped" 3 (by decide)
  exact ⟨h.1, h.2.2.2.2.2⟩

/-- Claim C10: when a well-formed identifier matches no stored document,
the order-status-update and product-update handlers answer not-found and
the database is exactly the state they started from — the zero-match
`update_one` modifies nothing.  (For the product update the body must have
passed validation; a rejected body also leaves the state unchanged, per the
definition of `update_product`.) -/
theorem update_missing_not_found (db : DBState) (s : String) (r : RawProductIn)
    (st : String) (now : Nat)
    (hs : isValidObjectId s = true)
    (hp : ∀ d ∈ db.products, d.oid ≠ s)
    (ho : ∀ d ∈ db.orders, d.oid ≠ s) :
    update_order_status db s st now = (.error .notFound, db) ∧
    (validate_product_in r ≠ none →
       update_product db s r now = (.error .notFound, db)) := by
  have hto : to_object_id s = .ok s := by simp [to_object_id, hs]
  have hordf : ∀ d ∈ db.orders, (d.oid == s) = false := by
    intro d hd; simpa using ho d hd
  have hprodf : ∀ d ∈ db.products, (d.oid == s) = false := by
    intro d hd; simpa using hp d hd
  constructor
  · simp only [update_order_status, hto,
      updateFirst_no_match _ _ db.orders hordf]
    rfl
  · intro hv
    rcases hval : validate_product_in r with _ | p
    · exact absurd hval hv
    · simp only [update_product, hval, hto,
        updateFirst_no_match _ _ db.products hprodf]
      rfl

/-- Witness for C10: a one-product, one-order database and a valid
identifier matching neither. -/
theorem update_missing_not_found_witness :
    update_order_status
      ⟨[], [{ oid := "64b0c0ffee64b0c0ffee64b0",
              items := [], shipping := ⟨"N", "n@example.com", none, "1 Main St",
                none, "Town", "TS", "00000", "US"⟩,
              payment := ⟨"cod", "pending", none⟩, notes := none,
              order_number := "ORD-1", total_amount := 0, status := "pending",
              created_at := 0, updated_at := 0 }]⟩
      "aaaaaaaaaaaaaaaaaaaaaaaa" "shipped" 9
      = (.error .notFound,
         ⟨[], [{ oid := "64b0c0ffee64b0c0ffee64b0",
                 items := [], shipping := ⟨"N", "n@example.com", none, "1 Main St",
                   none, "Town", "TS", "00000", "US"⟩,
                 payment := ⟨"cod", "pending", none⟩, notes := none,
                 order_number := "ORD-1", total_amount := 0, status := "pending",
                 created_at := 0, updated_at := 0 }]⟩) :=
  (update_missing_not_found
    ⟨[], [{ oid := "64b0c0ffee64b0c0ffee64b0",
            items := [], shipping := ⟨"N", "n@example.com", none, "1 Main St",
              none, "Town", "TS", "00000", "US"⟩,
            payment := ⟨"cod", "pending", none⟩, notes := none,
            order_number := "ORD-1", total_amount := 0, status := "pending",
            created_at := 0, updated_at := 0 }]⟩
    "aaaaaaaaaaaaaaaaaaaaaaaa"
    ⟨some "T", none, some 1, some "Apparel", none, none, none, none, none, none⟩
    "shipped" 9 (by decide) (by decide) (by decide)).1

/-- Counterexample to claim C8 as stated: after a first seed call has
populated the catalog (with N = 4 samples), the second call does answer
without inserting, but its response carries **no** count at all — it does
not report the existing count. -/
theorem seed_second_call_reports_no_count :
    (seed_products (seed_products ⟨[], []⟩ 0).2 1).1.count = none ∧
    (seed_products (seed_products ⟨[], []⟩ 0).2 1).1.count
      ≠ some ((seed_products ⟨[], []⟩ 0).2.products.length) := by
  constructor <;> decide

/-- Claim C8 (amended): seeding an empty catalog inserts exactly the fixed
4-element sample set and reports `count = 4`; a second call inserts zero
documents (the state is unchanged) and reports a fixed already-seeded
message with no count — the existing count, which equals 4, is reported by
the first call only. -/
theorem seed_products_idempotent (db : DBState) (now now2 : Nat)
    (h : db.products = []) :
    (seed_products db now).1
        = { message := "Seeded sample products", count := some 4 } ∧
    ((seed_products db now).2).products = sampleProducts now ∧
    ((seed_products db now).2).products.length = 4 ∧
    seed_products ((seed_products db now).2) now2
        = ({ message := "Products already seeded", count := none },
           (seed_products db now).2) := by
  have h1 : seed_products db now
      = ({ message := "Seeded sample products", count := some 4 },
         { db with products := sampleProducts now }) := by
    simp only [seed_products, h]
    simp [sampleProducts]
  refine ⟨by rw [h1], by rw [h1], by rw [h1]; simp [sampleProducts], ?_⟩
  rw [h1]
  simp [seed_products, sampleProducts]

/-- Witness for C8 from the empty database. -/
theorem seed_products_idempotent_witness :
    (seed_products ⟨[], []⟩ 0).1
        = { message := "Seeded sample products", count := some 4 } ∧
    seed_products ((seed_products ⟨[], []⟩ 0).2) 1
        = ({ message := "Products already seeded", count := none },
           (seed_products ⟨[], []⟩ 0).2) := by
  have h := seed_products_idempotent ⟨[], []⟩ 0 1 rfl
  exact ⟨h.1, h.2.2.2⟩

/-- Claim C4: every product on a returned listing page respects the price
bounds — `min_price ≤ price` when a lower bound was given, `price ≤
max_price` when an upper bound was given; each bound is inclusive and
independently optional (an absent bound constrains nothing — the
conjunct for it is vacuous). -/
theorem list_products_price_bounds (db : DBState) (p : ListParams)
    (x : ProductDoc) (hx : x ∈ (list_products db p).1) :
    (∀ m, p.min_price = some m → m ≤ x.price) ∧
    (∀ m, p.max_price = some m → x.price ≤ m) := by
  have h1 : x ∈ sortStage p.sort (db.products.filter (matchesFilter p)) := by
    have h2 := (List.take_sublist _ _).subset hx
    exact (List.drop_sublist _ _).subset h2
  have h3 : matchesFilter p x = true :=
    (List.mem_filter.mp (mem_of_mem_sortStage h1)).2
  simp only [matchesFilter, Bool.and_eq_true] at h3
  constructor
  · intro m hm
    have := h3.1.2
    rw [hm] at this
    simpa using this
  · intro m hm
    have := h3.2
    rw [hm] at this
    simpa using this

/-- Witness for C4: a two-product catalog filtered to `[20, 100]` returns a
member, and the bounds hold for it. -/
theorem list_products_price_bounds_witness :
    (⟨"64b0c0ffee64b0c0ffee64b1", "B", none, 50, "Apparel", none, [], 1, false,
      [], none, 0, 0, 0, 0⟩ : ProductDoc) ∈
      (list_products
        ⟨[⟨"64b0c0ffee64b0c0ffee64b0", "A", none, 10, "Apparel", none, [], 1,
           false, [], none, 0, 0, 0, 0⟩,
          ⟨"64b0c0ffee64b0c0ffee64b1", "B", none, 50, "Apparel", none, [], 1,
           false, [], none, 0, 0, 0, 0⟩], []⟩
        ⟨none, none, some 20, some 100, none, 1, 12⟩).1 ∧
    (20 : ℚ) ≤ 50 ∧ (50 : ℚ) ≤ 100 := by
  have hx : (⟨"64b0c0ffee64b0c0ffee64b1", "B", none, 50, "Apparel", none, [], 1,
      false, [], none, 0, 0, 0, 0⟩ : ProductDoc) ∈
      (list_products
        ⟨[⟨"64b0c0ffee64b0c0ffee64b0", "A", none, 10, "Apparel", none, [], 1,
           false, [], none, 0, 0, 0, 0⟩,
          ⟨"64b0c0ffee64b0c0ffee64b1", "B", none, 50, "Apparel", none, [], 1,
           false, [], none, 0, 0, 0, 0⟩], []⟩
        ⟨none, none, some 20, some 100, none, 1, 12⟩).1 := by
    decide
  have h := list_products_price_bounds _ _ _ hx
  exact ⟨hx, h.1 20 rfl, h.2 100 rfl⟩

/-- Claim C5: with `sort=price_asc` the returned page's price sequence is
non-decreasing; with `sort=price_desc` it is non-increasing. -/
theorem list_products_price_sorted (db : DBState) (p : ListParams) :
    (p.sort = some "price_asc" →
      ((list_products db p).1.map (fun d => d.price)).Pairwise (· ≤ ·)) ∧
    (p.sort = some "price_desc" →
      ((list_products db p).1.map (fun d => d.price)).Pairwise (fun a b => b ≤ a)) := by
  constructor
  · intro hs
    apply List.pairwise_map.mpr
    apply List.Pairwise.sublist (List.take_sublist _ _)
    apply List.Pairwise.sublist (List.drop_sublist _ _)
    have h := @List.sorted_mergeSort ProductDoc
      (fun a b : ProductDoc => decide (a.price ≤ b.price))
      (fun a b c hab hbc => by
        simp only [decide_eq_true_eq] at *; exact le_trans hab hbc)
      (fun a b => by
        simp only [Bool.or_eq_true, decide_eq_true_eq]; exact le_total _ _)
      (db.products.filter (matchesFilter p))
    simp only [list_products, hs, sortStage]
    exact h.imp (fun hab => by simpa using hab)
  · intro hs
    apply List.pairwise_map.mpr
    apply List.Pairwise.sublist (List.take_sublist _ _)
    apply List.Pairwise.sublist (List.drop_sublist _ _)
    have h := @List.sorted_mergeSort ProductDoc
      (fun a b : ProductDoc => decide (b.price ≤ a.price))
      (fun a b c hab hbc => by
        simp only [decide_eq_true_eq] at *; exact le_trans hbc hab)
      (fun a b => by
        simp only [Bool.or_eq_true, decide_eq_true_eq]; exact le_total _ _)
      (db.products.filter (matchesFilter p))
    simp only [list_products, hs, sortStage]
    exact h.imp (fun hab => by simpa using hab)

/-- Witness for C5 on a concrete out-of-order catalog. -/
theorem list_products_price_sorted_witness :
    ((list_products
        ⟨[⟨"64b0c0ffee64b0c0ffee64b0", "A", none, 50, "Apparel", none, [], 1,
           false, [], none, 0, 0, 0, 0⟩,
          ⟨"64b0c0ffee64b0c0ffee64b1", "B", none, 10, "Apparel", none, [], 1,
           false, [], none, 0, 0, 0, 0⟩], []⟩
        ⟨none, none, none, none, some "price_asc", 1, 12⟩).1.map
          (fun d => d.price)).Pairwise (· ≤ ·) :=
  (list_products_price_sorted
    ⟨[⟨"64b0c0ffee64b0c0ffee64b0", "A", none, 50, "Apparel", none, [], 1,
       false, [], none, 0, 0, 0, 0⟩,
      ⟨"64b0c0ffee64b0c0ffee64b1", "B", none, 10, "Apparel", none, [], 1,
       false, [], none, 0, 0, 0, 0⟩], []⟩
    ⟨none, none, none, none, some "price_asc", 1, 12⟩).1 rfl

/-- Counterexample to claim C9 as stated: a product whose category is the
empty string (accepted by `ProductIn`, which does not constrain emptiness)
makes `GET /api/categories` return `""` — the `isinstance(c, str)` guard
does not exclude it. -/
theorem get_categories_returns_empty_string :
    "" ∈ get_categories
      ⟨[⟨"64b0c0ffee64b0c0ffee64b0", "A", none, 10, "", none, [], 1,
         false, [], none, 0, 0, 0, 0⟩], []⟩ := by
  unfold get_categories
  rw [(List.mergeSort_perm _ _).mem_iff, List.mem_dedup]
  simp

/-- Claim C9 (amended): `GET /api/categories` returns the distinct category
strings of the product collection in ascending order — without duplicates,
and containing exactly the categories that occur in the collection;
non-string values would be dropped, but the empty string is **not**
excluded. -/
theorem get_categories_sorted_distinct (db : DBState) :
    (get_categories db).Pairwise (· ≤ ·) ∧
    (get_categories db).Nodup ∧
    (∀ s, s ∈ get_categories db ↔ s ∈ db.products.map (fun d => d.category)) := by
  refine ⟨?_, ?_, ?_⟩
  · have h := @List.sorted_mergeSort String
      (fun a b : String => decide (a ≤ b))
      (fun a b c hab hbc => by
        simp only [decide_eq_true_eq] at *; exact le_trans hab hbc)
      (fun a b => by
        simp only [Bool.or_eq_true, decide_eq_true_eq]; exact le_total _ _)
      ((db.products.map (fun d => d.category)).dedup)
    exact h.imp (fun hab => by simpa using hab)
  · exact (List.mergeSort_perm _ _).nodup_iff.mpr (List.nodup_dedup _)
  · intro s
    unfold get_categories
    rw [(List.mergeSort_perm _ _).mem_iff, List.mem_dedup]

/-- Counterexample to claim C2 as stated: shaping is **not** idempotent.
On `{"_id": oid}` the first pass yields `{"id": "<hex>"}`; the second pass
finds no `_id` and executes `doc["id"] = ... if "_id" in doc else None`,
overwriting the string id with `None`. -/
theorem serialize_doc_not_idempotent :
    serialize_doc (serialize_doc
        (.cons "_id" (.oid "64b0c0ffee64b0c0ffee64b0") .nil))
      ≠ serialize_doc (.cons "_id" (.oid "64b0c0ffee64b0c0ffee64b0") .nil) := by
  decide

/-- Claim C2 (amended): shaping is idempotent exactly on documents that
carry no raw `_id` key at any nesting depth (in particular on every
document a first pass did **not** find an `_id` in); when `_id` is present
the second application overwrites the string `id` with `None`, as the
counterexample shows. -/
theorem serialize_doc_idem_of_idFree (d : BFields) (h : idFreeF d = true) :
    serialize_doc (serialize_doc d) = serialize_doc d :=
  shape_shape_of d (getKey_none_of_idFree h) (serAux_serAux d h)

/-- Witness for C2 on a concrete `_id`-free document with a nested map, a
list and a datetime. -/
theorem serialize_doc_idem_of_idFree_witness :
    idFreeF (.cons "name" (.str "Tee")
      (.cons "created_at" (.dt 3)
        (.cons "rating" (.obj (.cons "count" (.num 120) .nil))
          (.cons "tags" (.arr (.cons (.str "new") .nil)) .nil)))) = true ∧
    serialize_doc (serialize_doc
        (.cons "name" (.str "Tee")
          (.cons "created_at" (.dt 3)
            (.cons "rating" (.obj (.cons "count" (.num 120) .nil))
              (.cons "tags" (.arr (.cons (.str "new") .nil)) .nil)))))
      = serialize_doc
          (.cons "name" (.str "Tee")
            (.cons "created_at" (.dt 3)
              (.cons "rating" (.obj (.cons "count" (.num 120) .nil))
                (.cons "tags" (.arr (.cons (.str "new") .nil)) .nil)))) :=
  ⟨by decide, serialize_doc_idem_of_idFree _ (by decide)⟩

/-- Counterexample to claim C3 as stated: identifier handling is **not**
top-level-only.  A nested map that had no identifier field gains an
`id: None` binding — the shaper recurses with the full top-level rule into
nested maps. -/
theorem serialize_doc_alters_nested_map :
    getKey "id" (.cons "m" (.str "c") .nil) = none ∧
    getKey "specs" (serialize_doc (.cons "_id" (.oid "a")
        (.cons "specs" (.obj (.cons "m" (.str "c") .nil)) .nil)))
      = some (.obj (.cons "m" (.str "c") (.cons "id" .null .nil))) := by
  exact ⟨rfl, by decide⟩

/-- Claim C3 (amended): shaping applies the identifier replacement at
**every** map it reaches — the top level, maps nested as values, and maps
one list level down (maps inside lists inside lists are not visited): on a
document with unique keys at every level (the dict invariant), no reachable
map of the output retains a raw `_id` key, and a top-level `_id` is
replaced by a string-typed `id` holding its rendering. -/
theorem serialize_doc_id_replacement (d : BFields) :
    (uniqF d = true → cleanF (serialize_doc d) = true) ∧
    (∀ v, getKey "_id" d = some v →
      getKey "id" (serialize_doc d) = some (.str (pyStr v))) := by
  constructor
  · intro h
    exact cleanF_shape_of d (cleanF_serAuxDrop d h)
      (fun hid => cleanF_serAux d h ((getKey_eq_none_iff_keyMem _ _).mp hid))
  · intro v hv
    have hnil : d ≠ .nil := by
      intro hn; rw [hn] at hv; simp [getKey] at hv
    simp only [serialize_doc, if_neg hnil, hv]
    exact getKey_assignKey_self _ _ _

/-- Witness for C3 on a concrete document with a nested map. -/
theorem serialize_doc_id_replacement_witness :
    uniqF (.cons "_id" (.oid "64b0c0ffee64b0c0ffee64b0")
        (.cons "specs" (.obj (.cons "m" (.str "c") .nil)) .nil)) = true ∧
    cleanF (serialize_doc (.cons "_id" (.oid "64b0c0ffee64b0c0ffee64b0")
        (.cons "specs" (.obj (.cons "m" (.str "c") .nil)) .nil))) = true ∧
    getKey "id" (serialize_doc (.cons "_id" (.oid "64b0c0ffee64b0c0ffee64b0")
        (.cons "specs" (.obj (.cons "m" (.str "c") .nil)) .nil)))
      = some (.str "64b0c0ffee64b0c0ffee64b0") :=
  ⟨by decide,
   (serialize_doc_id_replacement _).1 (by decide),
   (serialize_doc_id_replacement _).2 (.oid "64b0c0ffee64b0c0ffee64b0") rfl⟩

/-- Claim C6: creating a product is rejected with a client error (pydantic
422) whenever `price`, `stock` or `sale_price` is negative or a required
field (`name`, `category`, `price`) is absent — the database untouched —
and creating with `price = 0` (and otherwise admissible fields) succeeds
and inserts the document. -/
theorem create_product_validation (db : DBState) (r : RawProductIn)
    (now : Nat) (newOid : String) :
    (((∃ pr, r.price = some pr ∧ pr < 0) ∨
      (∃ st, r.stock = some st ∧ st < 0) ∨
      (∃ sp, r.sale_price = some sp ∧ sp < 0) ∨
      r.name = none ∨ r.category = none ∨ r.price = none) →
        create_product db r now newOid = (.error .unprocessable, db)) ∧
    (r.price = some 0 → r.name ≠ none → r.category ≠ none →
     (∀ st, r.stock = some st → 0 ≤ st) →
     (∀ sp, r.sale_price = some sp → 0 ≤ sp) →
       ∃ doc, create_product db r now newOid
           = (.ok doc, { db with products := db.products ++ [doc] })
         ∧ doc.price = 0) := by
  constructor
  · intro h
    have hv : validate_product_in r = none := by
      rcases h with ⟨pr, hpr, hneg⟩ | ⟨st, hst, hneg⟩ | ⟨sp, hsp, hneg⟩ | hn | hc | hp
      · rcases hrn : r.name with _ | n
        · simp [validate_product_in, hrn]
        rcases hrc : r.category with _ | c <;>
          simp [validate_product_in, hrn, hrc, hpr, hneg]
      · rcases hrn : r.name with _ | n
        · simp [validate_product_in, hrn]
        rcases hrp : r.price with _ | pr
        · simp [validate_product_in, hrn, hrp]
        rcases hrc : r.category with _ | c <;>
          simp [validate_product_in, hrn, hrp, hrc, hst, hneg]
      · rcases hrn : r.name with _ | n
        · simp [validate_product_in, hrn]
        rcases hrp : r.price with _ | pr
        · simp [validate_product_in, hrn, hrp]
        rcases hrc : r.category with _ | c <;>
          simp [validate_product_in, hrn, hrp, hrc, hsp, hneg]
      · simp [validate_product_in, hn]
      · rcases hrn : r.name with _ | n
        · simp [validate_product_in, hrn]
        rcases hrp : r.price with _ | pr <;>
          simp [validate_product_in, hrn, hrp, hc]
      · rcases hrn : r.name with _ | n
        · simp [validate_product_in, hrn]
        simp [validate_product_in, hrn, hp]
    simp [create_product, hv]
  · intro hp0 hn hc hstn hspn
    rcases hrn : r.name with _ | n
    · exact absurd hrn hn
    rcases hrc : r.category with _ | c
    · exact absurd hrc hc
    have hv : ∃ p, validate_product_in r = some p ∧ p.price = 0 := by
      have h1 : ¬ (0 : ℚ) < 0 := lt_irrefl 0
      rcases hst : r.stock with _ | st <;> rcases hsp : r.sale_price with _ | sp
      · simp only [validate_product_in, hrn, hrc, hp0, hst, hsp, Option.getD,
          if_neg h1, decide_eq_true_eq]
        norm_num
      · have h3 : ¬ sp < 0 := not_lt.mpr (hspn sp hsp)
        simp only [validate_product_in, hrn, hrc, hp0, hst, hsp, Option.getD,
          if_neg h1, if_neg h3]
        norm_num
      · have h2 : ¬ st < 0 := not_lt.mpr (hstn st hst)
        simp only [validate_product_in, hrn, hrc, hp0, hst, hsp, Option.getD,
          if_neg h1, if_neg h2]
        norm_num
      · have h2 : ¬ st < 0 := not_lt.mpr (hstn st hst)
        have h3 : ¬ sp < 0 := not_lt.mpr (hspn sp hsp)
        simp only [validate_product_in, hrn, hrc, hp0, hst, hsp, Option.getD,
          if_neg h1, if_neg h2, if_neg h3]
        norm_num
    obtain ⟨p, hvp, hp⟩ := hv
    simp only [create_product, hvp]
    exact ⟨_, rfl, hp⟩

/-- Witness for C6: a negative-price body is rejected, and a zero-price
body is accepted and inserted. -/
theorem create_product_validation_witness :
    create_product ⟨[], []⟩
        ⟨some "T", none, some (-1), some "Apparel", none, none, none, none,
         none, none⟩ 5 "64b0c0ffee64b0c0ffee64b0"
      = (.error .unprocessable, ⟨[], []⟩) ∧
    (∃ doc, create_product ⟨[], []⟩
        ⟨some "T", none, some 0, some "Apparel", none, none, none, none,
         none, none⟩ 5 "64b0c0ffee64b0c0ffee64b0"
      = (.ok doc,
         { products := [] ++ [doc], orders := [] }) ∧ doc.price = 0) :=
  ⟨(create_product_validation ⟨[], []⟩
      ⟨some "T", none, some (-1), some "Apparel", none, none, none, none,
       none, none⟩ 5 "64b0c0ffee64b0c0ffee64b0").1
      (Or.inl ⟨-1, rfl, by norm_num⟩),
   (create_product_validation ⟨[], []⟩
      ⟨some "T", none, some 0, some "Apparel", none, none, none, none,
       none, none⟩ 5 "64b0c0ffee64b0c0ffee64b0").2 rfl
      (by simp) (by simp) (by simp) (by simp)⟩

end SecretCloset
